import Mathlib

/-!
Verification of the browser-side presentation layer of the civic-issue
reporting application (citizen dashboard, authentication manager,
shared API/UI helpers) against its natural-language specification.

The JavaScript source is embedded shallowly:
* `localStorage` (keys `authToken`, `refreshToken`, `userInfo`) becomes the
  `SessionStore` structure; `window.location.href = '/login/'` becomes the
  `redirectedToLogin` flag.
* JS header objects become association lists with first-match lookup.
  Object spread `\x7b...base, ...extra\x7d` gives `extra` precedence on a key
  collision, so the merge lists `extra` first; property assignment
  `h[k] = v` prepends the binding and drops the shadowed ones.  Both agree
  with the JS object on every lookup.
* `fetch` and the JSON bodies it yields are supplied by a `Network` /
  `FetchOutcome` oracle: each request's response (or network failure, or an
  unparseable body) is a parameter, and the functions return the list of
  requests actually sent so the claims can speak about them.
* JS truthiness on the strings involved (filter selectors, `detail`,
  `message`, `address` fields) is: the empty string is falsy.
-/

/-! ## Headers (JS objects used as string maps) -/

abbrev Headers := List (String × String)

/-- Lookup of a key in a header map (first binding wins). -/
def getHeader (h : Headers) (k : String) : Option String :=
  (h.find? (fun p => p.1 == k)).map (fun p => p.2)

/-- Embedding of the JS object spread `\x7b...base, ...extra\x7d`: on a key
collision the `extra` (caller-supplied) binding wins, so under first-match
lookup the merge lists `extra` first. -/
def mergeHeaders (base extra : Headers) : Headers :=
  extra ++ base

/-- Embedding of the JS property assignment `h[k] = v`: after it, `k` maps
to `v` and every other key is unchanged. -/
def setHeader (h : Headers) (k v : String) : Headers :=
  (k, v) :: h.filter (fun p => ¬ p.1 = k)

/-! ## Session store and auth manager state (src/unnamed/part_001) -/

/-- The three `localStorage` keys the auth manager owns:
`authToken`, `refreshToken`, `userInfo`. -/
structure SessionStore where
  authToken : Option String
  refreshToken : Option String
  userInfo : Option String
deriving DecidableEq, Repr

/-- Browser-visible state of the auth manager: the session store plus
whether a redirect to `/login/` has been issued. -/
structure ClientState where
  store : SessionStore
  redirectedToLogin : Bool
deriving DecidableEq, Repr

/-- `AuthManager.logout`: removes `authToken`, `refreshToken`, `userInfo`
and navigates to `/login/`. -/
def AuthManager.logout (_s : ClientState) : ClientState :=
  { store := { authToken := none, refreshToken := none, userInfo := none },
    redirectedToLogin := true }

/-- An HTTP response as the auth manager inspects it: only the status code
matters on its paths. -/
structure HttpResponse where
  status : Nat
deriving DecidableEq, Repr

/-- What the token-refresh endpoint does for a given refresh token:
the `fetch` either rejects (network error) or yields a response with a
status and the `access` field of its JSON body. -/
inductive RefreshOutcome where
  | netError : RefreshOutcome
  | response (status : Nat) (access : String) : RefreshOutcome
deriving DecidableEq, Repr

/-- `response.ok`: status in the range 200..299. -/
def responseOk (status : Nat) : Bool :=
  200 ≤ status && status < 300

/-- One request sent by `makeAuthenticatedRequest`: the url and the header
map passed to `fetch`. -/
structure SentRequest where
  url : String
  headers : Headers
deriving DecidableEq, Repr

/-- The network oracle for one `makeAuthenticatedRequest` call: the
response to the first `fetch` of the url, the response to the retry, and
the behaviour of `/api/auth/token/refresh/` for a given refresh token. -/
structure Network where
  firstResponse : Headers → HttpResponse
  secondResponse : Headers → HttpResponse
  refreshOutcome : String → RefreshOutcome

/-- `AuthManager.refreshToken`: if no refresh token is stored, log out and
return `none`; otherwise POST it to the refresh endpoint; on an ok
response persist the new access token and return it; on a network error
or a non-ok response return `none` without touching the session
("Don't force logout on JWT failure - session might still be valid"). -/
def AuthManager.refreshToken (net : Network) (s : ClientState) :
    ClientState × Option String :=
  match s.store.refreshToken with
  | none => (AuthManager.logout s, none)
  | some rt =>
    match net.refreshOutcome rt with
    | RefreshOutcome.netError => (s, none)
    | RefreshOutcome.response status access =>
      if responseOk status then
        ({ s with store := { s.store with authToken := some access } }, some access)
      else
        (s, none)

/-- The default header object `makeAuthenticatedRequest` builds before
spreading in the caller's headers. -/
def defaultAuthHeaders (token : String) : Headers :=
  [("Authorization", "Bearer " ++ token)]

/-- `AuthManager.makeAuthenticatedRequest(url, options)`: read the access
token (absent → logout, return null, send nothing); merge
`Authorization: Bearer <token>` with the caller's headers (caller wins);
send; on a 401 do one refresh, and if it yields a token overwrite the
`Authorization` header with it and resend once, returning that response;
if the refresh yields no token return null.  Returns the result, the
final client state, and the list of requests sent to `url`. -/
def AuthManager.makeAuthenticatedRequest (net : Network) (s : ClientState)
    (url : String) (optHeaders : Headers) :
    Option HttpResponse × ClientState × List SentRequest :=
  match s.store.authToken with
  | none => (none, AuthManager.logout s, [])
  | some token =>
    let headers := mergeHeaders (defaultAuthHeaders token) optHeaders
    let response := net.firstResponse headers
    if response.status = 401 then
      match AuthManager.refreshToken net s with
      | (s1, some newTok) =>
        let headers1 := setHeader headers "Authorization" ("Bearer " ++ newTok)
        (some (net.secondResponse headers1), s1,
          [⟨url, headers⟩, ⟨url, headers1⟩])
      | (s1, none) => (none, s1, [⟨url, headers⟩])
    else
      (some response, s, [⟨url, headers⟩])

/-! ## Report data model (src/unnamed/part_000) -/

/-- A report record as this layer reads it. -/
structure Report where
  id : Nat
  title : String
  description : String
  status : String
  category : String
  priority : String
  status_display : String
  priority_display : String
  category_display : String
  created_at : String
  address : Option String
  image : Option String
deriving DecidableEq, Repr

/-- `this.currentFilters`: the two selector values; the empty string is
the "no constraint" default. -/
structure Filters where
  status : String
  category : String
deriving DecidableEq, Repr

/-- The predicate inside `applyFilters`' `this.reports.filter(...)`:
a non-empty status selector that differs from the report's status rejects
it, then the same for the category selector, else the report is kept. -/
def filterPred (f : Filters) (r : Report) : Bool :=
  if f.status ≠ "" && r.status ≠ f.status then false
  else if f.category ≠ "" && r.category ≠ f.category then false
  else true

/-- The dashboard summary values `updateStats` writes to the DOM. -/
structure Stats where
  total : Nat
  submitted : Nat
  in_progress : Nat
  resolved : Nat
deriving DecidableEq, Repr

/-- `CitizenDashboard` instance state: the full list, the filtered list,
the current selectors, the painted stats, and the visibility flags this
layer toggles (`reports-loading` hidden, `no-reports` shown), plus the
toast messages emitted. -/
structure DashState where
  reports : List Report
  filteredReports : List Report
  currentFilters : Filters
  stats : Stats
  loadingHidden : Bool
  noReportsShown : Bool
  toasts : List String
deriving DecidableEq, Repr

/-- `CitizenDashboard.updateStats`: counts computed over `this.reports`
(the unfiltered list) and painted into the four counter elements. -/
def CitizenDashboard.updateStats (d : DashState) : DashState :=
  { d with stats :=
    { total := d.reports.length,
      submitted := (d.reports.filter (fun r => r.status == "submitted")).length,
      in_progress := (d.reports.filter (fun r => r.status == "in_progress")).length,
      resolved := (d.reports.filter (fun r => r.status == "resolved")).length } }

/-- `CitizenDashboard.renderReports`: an empty filtered list hides the
container and shows the empty state; otherwise the container is shown. -/
def CitizenDashboard.renderReports (d : DashState) : DashState :=
  if d.filteredReports.length = 0 then { d with noReportsShown := true }
  else { d with noReportsShown := false }

/-- `CitizenDashboard.applyFilters`: recompute `this.filteredReports` from
`this.reports` and `this.currentFilters`, then repaint. -/
def CitizenDashboard.applyFilters (d : DashState) : DashState :=
  CitizenDashboard.renderReports
    { d with filteredReports := d.reports.filter (filterPred d.currentFilters) }

/-- `CitizenDashboard.hideLoading`: add the `hidden` class to the
`reports-loading` element. -/
def CitizenDashboard.hideLoading (d : DashState) : DashState :=
  { d with loadingHidden := true }

/-- `CitizenDashboard.showNoReports`: hide the container, show the
empty-state element. -/
def CitizenDashboard.showNoReports (d : DashState) : DashState :=
  { d with noReportsShown := true }

/-- A `fetch` outcome as a caller that parses the body sees it:
a network error, or a response whose JSON body parsed to `some a`
(`none` = `response.json()` failed). -/
inductive FetchOutcome (α : Type) where
  | netError (msg : String) : FetchOutcome α
  | response (status : Nat) (body : Option α) : FetchOutcome α
deriving DecidableEq, Repr

/-- `CitizenDashboard.loadReports`: fetch `/api/reports/user/`; a non-ok
response or a parse failure is caught (toast + empty state); on success
ingest the list, recompute stats and the filtered view; the loading
indicator is hidden in the `finally` block on every path. -/
def CitizenDashboard.loadReports (outcome : FetchOutcome (List Report))
    (d : DashState) : DashState :=
  match outcome with
  | FetchOutcome.netError _ =>
    CitizenDashboard.hideLoading (CitizenDashboard.showNoReports
      { d with toasts := d.toasts ++ ["Failed to load reports"] })
  | FetchOutcome.response status body =>
    if responseOk status then
      match body with
      | some data =>
        CitizenDashboard.hideLoading
          (CitizenDashboard.applyFilters
            (CitizenDashboard.updateStats { d with reports := data }))
      | none =>
        CitizenDashboard.hideLoading (CitizenDashboard.showNoReports
          { d with toasts := d.toasts ++ ["Failed to load reports"] })
    else
      CitizenDashboard.hideLoading (CitizenDashboard.showNoReports
        { d with toasts := d.toasts ++ ["Failed to load reports"] })

/-! ## Report item rendering (src/unnamed/part_000, renderReportItem) -/

/-- The contextual action buttons a rendered report item carries. -/
inductive ReportAction where
  | viewDetails (id : Nat) : ReportAction
  | edit (id : Nat) : ReportAction
deriving DecidableEq, Repr

/-- JS `s.replace(pat, rep)` with a string pattern: replaces the FIRST
occurrence only. -/
def jsReplaceOnce (s pat rep : String) : String :=
  match s.splitOn pat with
  | [] => s
  | [_] => s
  | a :: rest => a ++ rep ++ String.intercalate pat rest

/-- The status → icon-class object literal in `getStatusIcon`. -/
def statusIcons : List (String × String) :=
  [("submitted", "fas fa-clock"),
   ("in_progress", "fas fa-cog"),
   ("resolved", "fas fa-check-circle"),
   ("rejected", "fas fa-times-circle")]

/-- `CitizenDashboard.getStatusIcon`: `icons[status] || 'fas fa-question-circle'`
wrapped in an `<i>` tag; an unrecognized status falls back. -/
def getStatusIcon (status : String) : String :=
  "<i class=\"" ++
    (((statusIcons.find? (fun p => p.1 == status)).map (fun p => p.2)).getD
      "fas fa-question-circle") ++ "\"></i>"

/-- The priority → icon-class object literal in `getPriorityIcon`. -/
def priorityIcons : List (String × String) :=
  [("low", "fas fa-arrow-down"),
   ("medium", "fas fa-minus"),
   ("high", "fas fa-arrow-up"),
   ("urgent", "fas fa-exclamation")]

/-- `CitizenDashboard.getPriorityIcon`: `icons[priority] || 'fas fa-minus'`
wrapped in an `<i>` tag; an unrecognized priority falls back. -/
def getPriorityIcon (priority : String) : String :=
  "<i class=\"" ++
    (((priorityIcons.find? (fun p => p.1 == priority)).map (fun p => p.2)).getD
      "fas fa-minus") ++ "\"></i>"

/-- The display fragment `renderReportItem` produces for one report, with
each interpolated piece of the template as a field. -/
structure ReportFragment where
  reportId : Nat
  title : String
  categoryLabel : String
  createdAt : String
  addressText : String
  statusBadgeClass : String
  statusIcon : String
  statusLabel : String
  priorityBadgeClass : String
  priorityIcon : String
  priorityLabel : String
  description : String
  image : Option String
  actions : List ReportAction
deriving DecidableEq, Repr

/-- `CitizenDashboard.renderReportItem`: the template for one report.
`report.address || 'Location provided'` (null and the empty string are
falsy); the image block is emitted only when `report.image` is truthy;
"View Details" is unconditional and "Edit" appears exactly when
`report.status === 'submitted'`. -/
def renderReportItem (r : Report) : ReportFragment :=
  { reportId := r.id,
    title := r.title,
    categoryLabel := r.category_display,
    createdAt := r.created_at,
    addressText := match r.address with
      | some a => if a = "" then "Location provided" else a
      | none => "Location provided",
    statusBadgeClass := "status-" ++ jsReplaceOnce r.status "_" "-",
    statusIcon := getStatusIcon r.status,
    statusLabel := r.status_display,
    priorityBadgeClass := "priority-" ++ r.priority,
    priorityIcon := getPriorityIcon r.priority,
    priorityLabel := r.priority_display,
    description := r.description,
    image := r.image,
    actions :=
      [ReportAction.viewDetails r.id] ++
        (if r.status = "submitted" then [ReportAction.edit r.id] else []) }

/-! ## Generic API helper (src/static/js/main.js, apiCall) -/

/-- Global page state touched by `apiCall` and its helpers: the loading
spinner, the `authToken` key, the redirect flag, the toasts shown. -/
structure AppState where
  busy : Bool
  authToken : Option String
  redirectedToLogin : Bool
  toasts : List String
deriving DecidableEq, Repr

/-- The JSON error body fields `apiCall` inspects on a non-ok response. -/
structure ApiBody where
  detail : Option String
  message : Option String
deriving DecidableEq, Repr

/-- JS `v || d` for an optional string `v`: `null`/`undefined` and the
empty string fall through to `d`. -/
def jsOrString (v : Option String) (d : String) : String :=
  match v with
  | some s => if s = "" then d else s
  | none => d

/-- What an `apiCall` invocation delivers to its caller: the parsed data,
`undefined` after the 401 redirect, or a thrown error. -/
inductive ApiResult where
  | success (data : ApiBody) : ApiResult
  | aborted : ApiResult
  | thrown (msg : String) : ApiResult
deriving DecidableEq, Repr

/-- The default headers `apiCall` builds: `Content-Type`, plus
`Authorization: Bearer <token>` when a token is stored. -/
def apiCallDefaultHeaders (token : Option String) : Headers :=
  [("Content-Type", "application/json")] ++
    (match token with
     | some t => [("Authorization", "Bearer " ++ t)]
     | none => [])

/-- The header map `apiCall` sends: the duplicated `headers` key in the
config object literal means the merged map (caller wins) is what reaches
`fetch`. -/
def apiCallHeaders (token : Option String) (optHeaders : Headers) : Headers :=
  mergeHeaders (apiCallDefaultHeaders token) optHeaders

/-- `apiCall(endpoint, options)`: show the spinner, fetch; a 401 clears
the token, redirects and returns `undefined`; then the body is parsed
(failure throws), a non-ok status throws `data.detail || data.message ||
'API Error'`; errors are toasted and rethrown; the spinner is hidden in
the `finally` block on every path. -/
def apiCall (outcome : FetchOutcome ApiBody) (s : AppState) :
    ApiResult × AppState :=
  let s0 := { s with busy := true }
  match outcome with
  | FetchOutcome.netError msg =>
    (ApiResult.thrown msg,
     { s0 with toasts := s0.toasts ++ [msg], busy := false })
  | FetchOutcome.response status body =>
    if status = 401 then
      (ApiResult.aborted,
       { s0 with authToken := none, redirectedToLogin := true, busy := false })
    else
      match body with
      | none =>
        (ApiResult.thrown "JSON parse error",
         { s0 with toasts := s0.toasts ++ ["JSON parse error"], busy := false })
      | some data =>
        if responseOk status then
          (ApiResult.success data, { s0 with busy := false })
        else
          let msg := jsOrString data.detail (jsOrString data.message "API Error")
          (ApiResult.thrown msg,
           { s0 with toasts := s0.toasts ++ [msg], busy := false })

/-! ## Spec-side definitions (for refinement-style claims) -/

/-- The filter predicate as the spec words it (§4.3): (status selector
empty OR equal) AND (category selector empty OR equal). -/
def specFilterPred (f : Filters) (r : Report) : Bool :=
  (f.status == "" || r.status == f.status) &&
    (f.category == "" || r.category == f.category)

/-! ## Shared fixtures for concrete evaluations -/

/-- A concrete report in the `submitted` state. -/
def sampleReport : Report :=
  { id := 1, title := "Pothole on Main St", description := "Large pothole",
    status := "submitted", category := "pothole", priority := "high",
    status_display := "Submitted", priority_display := "High",
    category_display := "Pothole", created_at := "2025-09-13T10:00:00Z",
    address := some "12 Main St", image := none }

/-- A concrete dashboard state with no reports loaded yet. -/
def emptyDash : DashState :=
  { reports := [], filteredReports := [], currentFilters := ⟨"", ""⟩,
    stats := ⟨0, 0, 0, 0⟩, loadingHidden := false, noReportsShown := false,
    toasts := [] }

/-! ## Helper lemmas -/

/-- Lookup through the spread-merge: the caller (`extra`) binding wins,
else the default (`base`) binding is used. -/
theorem getHeader_mergeHeaders (base extra : Headers) (k : String) :
    getHeader (mergeHeaders base extra) k =
      (getHeader extra k).or (getHeader base k) := by
  unfold mergeHeaders getHeader
  rw [List.find?_append]
  cases extra.find? (fun p => p.1 == k) <;> simp

/-- After `h[k] = v`, looking up `k` yields `v`. -/
theorem getHeader_setHeader_same (h : Headers) (k v : String) :
    getHeader (setHeader h k v) k = some v := by
  simp [setHeader, getHeader, List.find?]

/-- `renderReports` does not change the filtered list, so `applyFilters`
projects to exactly the source's `filter` call. -/
theorem applyFilters_filteredReports (d : DashState) :
    (CitizenDashboard.applyFilters d).filteredReports =
      d.reports.filter (filterPred d.currentFilters) := by
  unfold CitizenDashboard.applyFilters CitizenDashboard.renderReports
  split <;> rfl

/-- The code's early-return filter predicate agrees with the spec's
conjunction-of-disjunctions predicate. -/
theorem filterPred_eq_specFilterPred (f : Filters) (r : Report) :
    filterPred f r = specFilterPred f r := by
  unfold filterPred specFilterPred
  by_cases hs : f.status = "" <;> by_cases hrs : r.status = f.status <;>
    by_cases hc : f.category = "" <;> by_cases hrc : r.category = f.category <;>
      simp [hs, hrs, hc, hrc]

/-! ## Claims -/

/-- C3: `applyFilters` produces exactly the sublist of reports satisfying
(status selector empty OR equal) AND (category selector empty OR equal),
in source order.  The membership characterisation makes changing one
selector unable to admit or drop an entry that violates the other,
unchanged selector. -/
theorem applyFilters_exact (d : DashState) :
    (CitizenDashboard.applyFilters d).filteredReports =
        d.reports.filter (specFilterPred d.currentFilters) ∧
    (∀ r : Report, r ∈ (CitizenDashboard.applyFilters d).filteredReports ↔
        r ∈ d.reports ∧
          (d.currentFilters.status = "" ∨ r.status = d.currentFilters.status) ∧
          (d.currentFilters.category = "" ∨ r.category = d.currentFilters.category)) ∧
    (CitizenDashboard.applyFilters d).filteredReports.Sublist d.reports := by
  have hfil : (CitizenDashboard.applyFilters d).filteredReports =
      d.reports.filter (specFilterPred d.currentFilters) := by
    rw [applyFilters_filteredReports]
    exact List.filter_congr (fun r _ => filterPred_eq_specFilterPred _ r)
  refine ⟨hfil, ?_, ?_⟩
  · intro r
    rw [hfil, List.mem_filter]
    unfold specFilterPred
    simp [Bool.and_eq_true, Bool.or_eq_true, beq_iff_eq]
  · rw [hfil]
    exact List.filter_sublist _

/-- C4: the counts `updateStats` paints depend only on the unfiltered
report list, never on the filter selectors, and on the example list
`[submitted, resolved]` they are total 2, submitted 1, in_progress 0,
resolved 1. -/
theorem updateStats_independent_of_filters :
    (∀ (d : DashState) (f g : Filters),
      (CitizenDashboard.updateStats { d with currentFilters := f }).stats =
        (CitizenDashboard.updateStats { d with currentFilters := g }).stats) ∧
    (CitizenDashboard.updateStats
        { emptyDash with
            reports := [sampleReport, { sampleReport with id := 2, status := "resolved" }] }).stats =
      { total := 2, submitted := 1, in_progress := 0, resolved := 1 } := by
  constructor
  · intro d f g
    rfl
  · decide

/-- C7: every rendered report item carries a "View Details" action, and
carries an "Edit" action exactly when the report's status is the string
`submitted`; any other status yields only "View Details". -/
theorem renderReportItem_action_set (r : Report) :
    ReportAction.viewDetails r.id ∈ (renderReportItem r).actions ∧
    (ReportAction.edit r.id ∈ (renderReportItem r).actions ↔ r.status = "submitted") ∧
    (r.status ≠ "submitted" →
      (renderReportItem r).actions = [ReportAction.viewDetails r.id]) := by
  unfold renderReportItem
  by_cases h : r.status = "submitted" <;> simp [h]

/-- C7 witness: a submitted report renders both actions; the same report
moved to `in_progress` renders only "View Details". -/
theorem renderReportItem_action_set_witness :
    ReportAction.viewDetails 1 ∈ (renderReportItem sampleReport).actions ∧
    ReportAction.edit 1 ∈ (renderReportItem sampleReport).actions ∧
    (renderReportItem { sampleReport with status := "in_progress" }).actions =
      [ReportAction.viewDetails 1] := by
  refine ⟨(renderReportItem_action_set sampleReport).1, ?_, ?_⟩
  · exact (renderReportItem_action_set sampleReport).2.1.mpr rfl
  · exact (renderReportItem_action_set
      { sampleReport with status := "in_progress" }).2.2 (by decide)

/-- An unrecognized status finds no entry in the icon table. -/
theorem statusIcons_find_none (status : String)
    (hs : status ∉ ["submitted", "in_progress", "resolved", "rejected"]) :
    statusIcons.find? (fun p => p.1 == status) = none := by
  rw [List.find?_eq_none]
  intro p hp
  simp only [List.mem_cons, List.mem_singleton, not_or] at hs
  obtain ⟨h1, h2, h3, h4⟩ := hs
  simp only [statusIcons, List.mem_cons, List.not_mem_nil, or_false] at hp
  rcases hp with rfl | rfl | rfl | rfl <;>
    simp only [beq_iff_eq] <;> intro h <;> simp_all

/-- An unrecognized priority finds no entry in the icon table. -/
theorem priorityIcons_find_none (priority : String)
    (hp : priority ∉ ["low", "medium", "high", "urgent"]) :
    priorityIcons.find? (fun p => p.1 == priority) = none := by
  rw [List.find?_eq_none]
  intro p hmem
  simp only [List.mem_cons, List.mem_singleton, not_or] at hp
  obtain ⟨h1, h2, h3, h4⟩ := hp
  simp only [priorityIcons, List.mem_cons, List.not_mem_nil, or_false] at hmem
  rcases hmem with rfl | rfl | rfl | rfl <;>
    simp only [beq_iff_eq] <;> intro h <;> simp_all

/-- C8: `getStatusIcon` and `getPriorityIcon` are total and yield the
fallback glyph on every code outside the enumerated sets, and a report
rendered with such a code shows the fallback icon next to the raw display
label. -/
theorem unknown_codes_render_fallback (status priority : String) (r : Report)
    (hs : status ∉ ["submitted", "in_progress", "resolved", "rejected"])
    (hp : priority ∉ ["low", "medium", "high", "urgent"]) :
    getStatusIcon status = "<i class=\"fas fa-question-circle\"></i>" ∧
    getPriorityIcon priority = "<i class=\"fas fa-minus\"></i>" ∧
    (r.status = status →
      (renderReportItem r).statusIcon = "<i class=\"fas fa-question-circle\"></i>" ∧
      (renderReportItem r).statusLabel = r.status_display) ∧
    (r.priority = priority →
      (renderReportItem r).priorityIcon = "<i class=\"fas fa-minus\"></i>" ∧
      (renderReportItem r).priorityLabel = r.priority_display) := by
  have hsi : getStatusIcon status = "<i class=\"fas fa-question-circle\"></i>" := by
    unfold getStatusIcon
    rw [statusIcons_find_none status hs]
    rfl
  have hpi : getPriorityIcon priority = "<i class=\"fas fa-minus\"></i>" := by
    unfold getPriorityIcon
    rw [priorityIcons_find_none priority hp]
    rfl
  refine ⟨hsi, hpi, ?_, ?_⟩
  · intro hr
    constructor
    · show getStatusIcon r.status = _
      rw [hr, hsi]
    · rfl
  · intro hr
    constructor
    · show getPriorityIcon r.priority = _
      rw [hr, hpi]
    · rfl

/-- C8 witness: the unknown codes `archived` / `critical` fall back, also
when rendered inside a report item. -/
theorem unknown_codes_render_fallback_witness :
    getStatusIcon "archived" = "<i class=\"fas fa-question-circle\"></i>" ∧
    (renderReportItem
        { sampleReport with status := "archived", priority := "critical" }).statusIcon =
      "<i class=\"fas fa-question-circle\"></i>" ∧
    (renderReportItem
        { sampleReport with status := "archived", priority := "critical" }).priorityIcon =
      "<i class=\"fas fa-minus\"></i>" := by
  have h := unknown_codes_render_fallback "archived" "critical"
    { sampleReport with status := "archived", priority := "critical" }
    (by decide) (by decide)
  exact ⟨h.1, (h.2.2.1 rfl).1, (h.2.2.2 rfl).1⟩

/-- C1: with a token stored, a first 401 and a successful refresh, the
call persists the new access token, resends the original request exactly
once with the refreshed `Authorization` header, and returns that second
response whatever its status; and every call sends at most two requests. -/
theorem refresh_retry_behaviour (net : Network) (s : ClientState)
    (url : String) (opts : Headers) (tok rt acc : String) (st : Nat)
    (hTok : s.store.authToken = some tok)
    (hRt : s.store.refreshToken = some rt)
    (h401 : (net.firstResponse (mergeHeaders (defaultAuthHeaders tok) opts)).status = 401)
    (hRef : net.refreshOutcome rt = RefreshOutcome.response st acc)
    (hOk : responseOk st = true) :
    AuthManager.makeAuthenticatedRequest net s url opts =
      (some (net.secondResponse
          (setHeader (mergeHeaders (defaultAuthHeaders tok) opts)
            "Authorization" ("Bearer " ++ acc))),
       { s with store := { s.store with authToken := some acc } },
       [⟨url, mergeHeaders (defaultAuthHeaders tok) opts⟩,
        ⟨url, setHeader (mergeHeaders (defaultAuthHeaders tok) opts)
          "Authorization" ("Bearer " ++ acc)⟩]) ∧
    (∀ (n2 : Network) (s2 : ClientState) (u2 : String) (o2 : Headers),
      (AuthManager.makeAuthenticatedRequest n2 s2 u2 o2).2.2.length ≤ 2) := by
  constructor
  · have hrf : AuthManager.refreshToken net s =
        ({ s with store := { s.store with authToken := some acc } }, some acc) := by
      unfold AuthManager.refreshToken
      simp only [hRt, hRef, hOk, if_true]
    unfold AuthManager.makeAuthenticatedRequest
    rw [hTok]
    simp only [h401, if_true, hrf]
  · intro n2 s2 u2 o2
    unfold AuthManager.makeAuthenticatedRequest
    cases h : s2.store.authToken with
    | none => simp
    | some t =>
      simp only
      split
      · rcases hr : AuthManager.refreshToken n2 s2 with ⟨s1, tk⟩
        cases tk <;> simp
      · simp

/-- C1 witness: a concrete run in which both responses are 401 and the
refresh succeeds still returns the second 401 after exactly two requests,
with the new token persisted. -/
theorem refresh_retry_behaviour_witness :
    (AuthManager.makeAuthenticatedRequest
        { firstResponse := fun _ => ⟨401⟩, secondResponse := fun _ => ⟨401⟩,
          refreshOutcome := fun _ => RefreshOutcome.response 200 "newAccess" }
        { store := { authToken := some "oldAccess", refreshToken := some "refresh1",
                     userInfo := some "profile" },
          redirectedToLogin := false }
        "/api/reports/user/" []).1 = some ⟨401⟩ ∧
    (AuthManager.makeAuthenticatedRequest
        { firstResponse := fun _ => ⟨401⟩, secondResponse := fun _ => ⟨401⟩,
          refreshOutcome := fun _ => RefreshOutcome.response 200 "newAccess" }
        { store := { authToken := some "oldAccess", refreshToken := some "refresh1",
                     userInfo := some "profile" },
          redirectedToLogin := false }
        "/api/reports/user/" []).2.1.store.authToken = some "newAccess" ∧
    (AuthManager.makeAuthenticatedRequest
        { firstResponse := fun _ => ⟨401⟩, secondResponse := fun _ => ⟨401⟩,
          refreshOutcome := fun _ => RefreshOutcome.response 200 "newAccess" }
        { store := { authToken := some "oldAccess", refreshToken := some "refresh1",
                     userInfo := some "profile" },
          redirectedToLogin := false }
        "/api/reports/user/" []).2.2.length = 2 := by
  have h := refresh_retry_behaviour
    { firstResponse := fun _ => ⟨401⟩, secondResponse := fun _ => ⟨401⟩,
      refreshOutcome := fun _ => RefreshOutcome.response 200 "newAccess" }
    { store := { authToken := some "oldAccess", refreshToken := some "refresh1",
                 userInfo := some "profile" },
      redirectedToLogin := false }
    "/api/reports/user/" [] "oldAccess" "refresh1" "newAccess" 200
    rfl rfl rfl rfl (by decide)
  rw [h.1]
  exact ⟨rfl, rfl, rfl⟩

/-- C5: with no access token stored, the call clears the whole session,
signals the redirect to the login page, returns null, and sends no
request at all. -/
theorem missing_token_logs_out (net : Network) (s : ClientState)
    (url : String) (opts : Headers)
    (hTok : s.store.authToken = none) :
    AuthManager.makeAuthenticatedRequest net s url opts =
      (none,
       { store := { authToken := none, refreshToken := none, userInfo := none },
         redirectedToLogin := true },
       []) := by
  unfold AuthManager.makeAuthenticatedRequest
  rw [hTok]
  rfl

/-- C5 witness: a state holding only a refresh token and a profile is
wiped and redirected without any request being sent. -/
theorem missing_token_logs_out_witness :
    AuthManager.makeAuthenticatedRequest
        { firstResponse := fun _ => ⟨200⟩, secondResponse := fun _ => ⟨200⟩,
          refreshOutcome := fun _ => RefreshOutcome.netError }
        { store := { authToken := none, refreshToken := some "refresh1",
                     userInfo := some "profile" },
          redirectedToLogin := false }
        "/api/reports/user/" [] =
      (none,
       { store := { authToken := none, refreshToken := none, userInfo := none },
         redirectedToLogin := true },
       []) :=
  missing_token_logs_out _ _ _ _ rfl

/-- Fixture for the C2 counterexample: an access token is stored but the
refresh token is absent, and the first request answers 401. -/
def staleTokenState : ClientState :=
  { store := { authToken := some "oldAccess", refreshToken := none,
               userInfo := some "profile" },
    redirectedToLogin := false }

/-- Fixture for the C2 counterexample: the protected url answers 401. -/
def alwaysUnauthorizedNet : Network :=
  { firstResponse := fun _ => ⟨401⟩, secondResponse := fun _ => ⟨401⟩,
    refreshOutcome := fun _ => RefreshOutcome.netError }

/-- C2 counterexample: with an access token stored, no refresh token, and
a first 401, the call does return null, but the session is NOT left
unchanged — the cached profile is wiped and a redirect to login is
issued, contradicting the claim for the refresh-token-absent case. -/
theorem refresh_failure_clears_session_when_token_absent :
    (AuthManager.makeAuthenticatedRequest alwaysUnauthorizedNet staleTokenState
        "/api/reports/user/" []).1 = none ∧
    staleTokenState.store.userInfo = some "profile" ∧
    (AuthManager.makeAuthenticatedRequest alwaysUnauthorizedNet staleTokenState
        "/api/reports/user/" []).2.1.store.userInfo = none ∧
    (AuthManager.makeAuthenticatedRequest alwaysUnauthorizedNet staleTokenState
        "/api/reports/user/" []).2.1.redirectedToLogin = true := by
  decide

/-- C2 (amended): on a first 401 with a failing refresh the call returns
null; when the refresh fails by network error or by a non-2xx refresh
response the session store and the redirect flag are left untouched; but
when the refresh token is absent the session is cleared and the redirect
to login is signalled. -/
theorem refresh_failure_behaviour (net : Network) (s : ClientState)
    (url : String) (opts : Headers) (tok : String)
    (hTok : s.store.authToken = some tok)
    (h401 : (net.firstResponse (mergeHeaders (defaultAuthHeaders tok) opts)).status = 401) :
    (∀ rt, s.store.refreshToken = some rt →
      net.refreshOutcome rt = RefreshOutcome.netError →
      AuthManager.makeAuthenticatedRequest net s url opts =
        (none, s, [⟨url, mergeHeaders (defaultAuthHeaders tok) opts⟩])) ∧
    (∀ rt st acc, s.store.refreshToken = some rt →
      net.refreshOutcome rt = RefreshOutcome.response st acc →
      responseOk st = false →
      AuthManager.makeAuthenticatedRequest net s url opts =
        (none, s, [⟨url, mergeHeaders (defaultAuthHeaders tok) opts⟩])) ∧
    (s.store.refreshToken = none →
      AuthManager.makeAuthenticatedRequest net s url opts =
        (none, AuthManager.logout s,
          [⟨url, mergeHeaders (defaultAuthHeaders tok) opts⟩])) := by
  refine ⟨?_, ?_, ?_⟩
  · intro rt hRt hNet
    have hrf : AuthManager.refreshToken net s = (s, none) := by
      unfold AuthManager.refreshToken
      simp only [hRt, hNet]
    unfold AuthManager.makeAuthenticatedRequest
    rw [hTok]
    simp only [h401, if_true, hrf]
  · intro rt st acc hRt hResp hBad
    have hrf : AuthManager.refreshToken net s = (s, none) := by
      unfold AuthManager.refreshToken
      simp only [hRt, hResp, hBad, Bool.false_eq_true, if_false]
    unfold AuthManager.makeAuthenticatedRequest
    rw [hTok]
    simp only [h401, if_true, hrf]
  · intro hRt
    have hrf : AuthManager.refreshToken net s = (AuthManager.logout s, none) := by
      unfold AuthManager.refreshToken
      simp only [hRt]
    unfold AuthManager.makeAuthenticatedRequest
    rw [hTok]
    simp only [h401, if_true, hrf]

/-- C2 (amended) witness: a 401 followed by a 403 refresh response leaves
the whole client state intact and yields null. -/
theorem refresh_failure_behaviour_witness :
    AuthManager.makeAuthenticatedRequest
        { firstResponse := fun _ => ⟨401⟩, secondResponse := fun _ => ⟨200⟩,
          refreshOutcome := fun _ => RefreshOutcome.response 403 "" }
        { store := { authToken := some "oldAccess", refreshToken := some "refresh1",
                     userInfo := some "profile" },
          redirectedToLogin := false }
        "/api/reports/user/" [] =
      (none,
       { store := { authToken := some "oldAccess", refreshToken := some "refresh1",
                    userInfo := some "profile" },
         redirectedToLogin := false },
       [⟨"/api/reports/user/",
         mergeHeaders (defaultAuthHeaders "oldAccess") []⟩]) :=
  (refresh_failure_behaviour _ _ _ _ "oldAccess" rfl rfl).2.1
    "refresh1" 403 "" rfl rfl (by decide)

/-- C6: both request helpers send the merge of their default headers
(`Authorization: Bearer <token>`, and for `apiCall` also `Content-Type`)
with the caller's headers, the caller's binding winning on a collision. -/
theorem caller_headers_win (net : Network) (s : ClientState) (url : String)
    (opts : Headers) (tok k : String)
    (hTok : s.store.authToken = some tok) :
    (∃ req rest, (AuthManager.makeAuthenticatedRequest net s url opts).2.2 = req :: rest ∧
        req.url = url ∧
        getHeader req.headers k =
          (getHeader opts k).or (getHeader (defaultAuthHeaders tok) k)) ∧
    (∀ (optHeaders : Headers) (k2 : String),
      getHeader (apiCallHeaders (some tok) optHeaders) k2 =
        (getHeader optHeaders k2).or (getHeader (apiCallDefaultHeaders (some tok)) k2)) := by
  constructor
  · have hmerge := getHeader_mergeHeaders (defaultAuthHeaders tok) opts k
    unfold AuthManager.makeAuthenticatedRequest
    rw [hTok]
    simp only
    split
    · rcases hr : AuthManager.refreshToken net s with ⟨s1, tk⟩
      cases tk <;>
        exact ⟨⟨url, mergeHeaders (defaultAuthHeaders tok) opts⟩, _, rfl, rfl, hmerge⟩
    · exact ⟨⟨url, mergeHeaders (defaultAuthHeaders tok) opts⟩, _, rfl, rfl, hmerge⟩
  · intro optHeaders k2
    exact getHeader_mergeHeaders (apiCallDefaultHeaders (some tok)) optHeaders k2

/-- C6 witness: a caller-supplied `Authorization` overrides the default on
the first request, and a fresh key falls through to the default. -/
theorem caller_headers_win_witness :
    (∃ req rest,
      (AuthManager.makeAuthenticatedRequest
          { firstResponse := fun _ => ⟨200⟩, secondResponse := fun _ => ⟨200⟩,
            refreshOutcome := fun _ => RefreshOutcome.netError }
          { store := { authToken := some "tokA", refreshToken := none, userInfo := none },
            redirectedToLogin := false }
          "/api/x" [("Authorization", "Bearer custom")]).2.2 = req :: rest ∧
        req.url = "/api/x" ∧
        getHeader req.headers "Authorization" =
          (getHeader [("Authorization", "Bearer custom")] "Authorization").or
            (getHeader (defaultAuthHeaders "tokA") "Authorization")) ∧
    getHeader (apiCallHeaders (some "tokA") []) "Content-Type" =
      (getHeader [] "Content-Type").or
        (getHeader (apiCallDefaultHeaders (some "tokA")) "Content-Type") := by
  have h := caller_headers_win
    { firstResponse := fun _ => ⟨200⟩, secondResponse := fun _ => ⟨200⟩,
      refreshOutcome := fun _ => RefreshOutcome.netError }
    { store := { authToken := some "tokA", refreshToken := none, userInfo := none },
      redirectedToLogin := false }
    "/api/x" [("Authorization", "Bearer custom")] "tokA" "Authorization" rfl
  exact ⟨h.1, h.2 [] "Content-Type"⟩

/-- C10: after a 401 and a successful refresh, the retried request's
`Authorization` header is the refreshed bearer token, whatever the
caller put in `options.headers` — the caller-wins merge applies only to
the first attempt. -/
theorem retry_authorization_overwritten (net : Network) (s : ClientState)
    (url : String) (opts : Headers) (tok rt acc : String) (st : Nat)
    (hTok : s.store.authToken = some tok)
    (hRt : s.store.refreshToken = some rt)
    (h401 : (net.firstResponse (mergeHeaders (defaultAuthHeaders tok) opts)).status = 401)
    (hRef : net.refreshOutcome rt = RefreshOutcome.response st acc)
    (hOk : responseOk st = true) :
    ∃ r1 r2, (AuthManager.makeAuthenticatedRequest net s url opts).2.2 = [r1, r2] ∧
      getHeader r2.headers "Authorization" = some ("Bearer " ++ acc) := by
  have hrf : AuthManager.refreshToken net s =
      ({ s with store := { s.store with authToken := some acc } }, some acc) := by
    unfold AuthManager.refreshToken
    simp only [hRt, hRef, hOk, if_true]
  unfold AuthManager.makeAuthenticatedRequest
  rw [hTok]
  simp only [h401, if_true, hrf]
  exact ⟨_, _, rfl, getHeader_setHeader_same _ _ _⟩

/-- C10 witness: the caller smuggles in its own `Authorization` header;
the retry still carries the refreshed token. -/
theorem retry_authorization_overwritten_witness :
    ∃ r1 r2,
      (AuthManager.makeAuthenticatedRequest
          { firstResponse := fun _ => ⟨401⟩, secondResponse := fun _ => ⟨200⟩,
            refreshOutcome := fun _ => RefreshOutcome.response 200 "newAccess" }
          { store := { authToken := some "oldAccess", refreshToken := some "refresh1",
                       userInfo := some "profile" },
            redirectedToLogin := false }
          "/api/x" [("Authorization", "Bearer stale")]).2.2 = [r1, r2] ∧
      getHeader r2.headers "Authorization" = some ("Bearer " ++ "newAccess") :=
  retry_authorization_overwritten _ _ _ _ "oldAccess" "refresh1" "newAccess" 200
    rfl rfl rfl rfl (by decide)

/-- C9: every execution path of `apiCall` and of `loadReports` — success,
network error, 401, parse failure, non-ok response — ends with the busy /
loading indicator cleared, because both clear it in a `finally` block. -/
theorem busy_indicator_always_cleared :
    (∀ (o : FetchOutcome ApiBody) (s : AppState), ((apiCall o s).2).busy = false) ∧
    (∀ (o : FetchOutcome (List Report)) (d : DashState),
      (CitizenDashboard.loadReports o d).loadingHidden = true) := by
  constructor
  · intro o s
    unfold apiCall
    cases o with
    | netError msg => rfl
    | response status body =>
      simp only
      split
      · rfl
      · cases body with
        | none => rfl
        | some data =>
          simp only
          split
          · rfl
          · rfl
  · intro o d
    unfold CitizenDashboard.loadReports
    cases o with
    | netError msg => rfl
    | response status body =>
      simp only
      split
      · cases body with
        | none => rfl
        | some data => rfl
      · rfl
